import Mathlib

set_option maxRecDepth 200000

/-!
Verification development for the polysqueeze WSS market client
(src/src/wss.rs). The Rust module is shallowly embedded: the client state
is a structure, the transport is a deterministic world (a list of inbound
frames, a stream of connect outcomes, a stream of send outcomes and a
logical clock), and every async method becomes a pure state-passing
function. Fuel makes the read loop and the connect loop structurally
recursive; fuel exhaustion models blocking forever.
-/

/-! ## JSON values (serde_json::Value) -/

/-- A JSON value, mirroring the shape of serde_json::Value. Numbers keep
their raw textual form: the client only ever reads strings out of JSON. -/
inductive Json where
  | null : Json
  | bool (b : Bool) : Json
  | num (raw : String) : Json
  | str (s : String) : Json
  | arr (elems : List Json) : Json
  | obj (fields : List (String × Json)) : Json

/-- Value::get(key): field lookup on an object, none on any other value. -/
def jsonGet (v : Json) (key : String) : Option Json :=
  match v with
  | Json.obj fields => fields.lookup key
  | _ => none

/-- Value::as_str(): the string when the value is a JSON string. -/
def asStr (v : Json) : Option String :=
  match v with
  | Json.str s => some s
  | _ => none

/-! ## A JSON text parser, modelling serde_json::from_str.

serde_json is an external library; this is a standard recursive-descent
parser for the JSON subset the channel uses (objects, arrays, strings
with basic escapes, numbers kept raw, true/false/null). Structural
recursion on an explicit fuel keeps every function kernel-computable. -/

def isJsonWs (c : Char) : Bool :=
  c = ' ' || c = '\t' || c = '\n' || c = '\r'

def skipWs (cs : List Char) : List Char :=
  match cs with
  | [] => []
  | c :: rest => if isJsonWs c then skipWs rest else c :: rest

/-- Parse the body of a JSON string after the opening quote, handling the
escapes the frames use; returns the decoded characters and the rest. -/
def parseStringBody (acc : List Char) : List Char → Option (List Char × List Char)
  | [] => none
  | '"' :: rest => some (acc.reverse, rest)
  | '\\' :: e :: rest =>
    if e = '"' then parseStringBody ('"' :: acc) rest
    else if e = '\\' then parseStringBody ('\\' :: acc) rest
    else if e = 'n' then parseStringBody ('\n' :: acc) rest
    else if e = 't' then parseStringBody ('\t' :: acc) rest
    else none
  | c :: rest => parseStringBody (c :: acc) rest

def isNumChar (c : Char) : Bool :=
  c.isDigit || c = '-' || c = '+' || c = '.' || c = 'e' || c = 'E'

def parseNumber (cs : List Char) : Option (String × List Char) :=
  let digits := cs.takeWhile isNumChar
  if digits.isEmpty then none
  else some (String.mk digits, cs.dropWhile isNumChar)

/-- Comma-separated array elements given a parser for one value. -/
def parseElemsWith (pv : List Char → Option (Json × List Char)) :
    Nat → List Char → Option (List Json × List Char)
  | 0, _ => none
  | fuel + 1, cs =>
    match skipWs cs with
    | ']' :: rest => some ([], rest)
    | cs1 =>
      match pv cs1 with
      | none => none
      | some (v, rest) =>
        match skipWs rest with
        | ',' :: rest1 =>
          match parseElemsWith pv fuel rest1 with
          | some (vs, rest2) => some (v :: vs, rest2)
          | none => none
        | ']' :: rest1 => some ([v], rest1)
        | _ => none

/-- Comma-separated object fields given a parser for one value. -/
def parseFieldsWith (pv : List Char → Option (Json × List Char)) :
    Nat → List Char → Option (List (String × Json) × List Char)
  | 0, _ => none
  | fuel + 1, cs =>
    match skipWs cs with
    | '}' :: rest => some ([], rest)
    | '"' :: rest =>
      match parseStringBody [] rest with
      | none => none
      | some (k, rest1) =>
        match skipWs rest1 with
        | ':' :: rest2 =>
          match pv rest2 with
          | none => none
          | some (v, rest3) =>
            match skipWs rest3 with
            | ',' :: rest4 =>
              match parseFieldsWith pv fuel rest4 with
              | some (fs, rest5) => some ((String.mk k, v) :: fs, rest5)
              | none => none
            | '}' :: rest4 => some ([(String.mk k, v)], rest4)
            | _ => none
        | _ => none
    | _ => none

def parseValue : Nat → List Char → Option (Json × List Char)
  | 0, _ => none
  | fuel + 1, cs =>
    match skipWs cs with
    | [] => none
    | c :: rest =>
      if c = '"' then
        match parseStringBody [] rest with
        | some (s, rest1) => some (Json.str (String.mk s), rest1)
        | none => none
      else if c = '{' then
        match parseFieldsWith (parseValue fuel) (rest.length + 1) rest with
        | some (fs, rest1) => some (Json.obj fs, rest1)
        | none => none
      else if c = '[' then
        match parseElemsWith (parseValue fuel) (rest.length + 1) rest with
        | some (vs, rest1) => some (Json.arr vs, rest1)
        | none => none
      else if c = 't' then
        match rest with
        | 'r' :: 'u' :: 'e' :: rest1 => some (Json.bool true, rest1)
        | _ => none
      else if c = 'f' then
        match rest with
        | 'a' :: 'l' :: 's' :: 'e' :: rest1 => some (Json.bool false, rest1)
        | _ => none
      else if c = 'n' then
        match rest with
        | 'u' :: 'l' :: 'l' :: rest1 => some (Json.null, rest1)
        | _ => none
      else
        match parseNumber (c :: rest) with
        | some (raw, rest1) => some (Json.num raw, rest1)
        | none => none

/-- serde_json::from_str on a text frame: parse one value and require only
trailing whitespace after it. -/
def serde_from_str (s : String) : Option Json :=
  match parseValue (s.data.length + 1) s.data with
  | some (v, rest) => if (skipWs rest).isEmpty then some v else none
  | none => none

/-! ## Errors and domain types

The crate modules errors.rs and types.rs are not part of the sources
here; only their interface is visible from wss.rs and the spec. -/

/-- Modelled from the spec: StreamErrorKind, the stream error kinds named
in wss.rs (ConnectionFailed, MessageCorrupted); errors.rs itself is not in
the sources. -/
inductive StreamErrorKind where
  | connectionFailed : StreamErrorKind
  | messageCorrupted : StreamErrorKind
deriving DecidableEq

/-- Modelled from the spec: PolyError, the error type of the crate
(errors.rs is not in the sources). A parse error carries its message; a
stream error carries a message and a StreamErrorKind. The boxed source
error attached to some parse errors is not observable and not modelled;
transport-supplied text inside messages is abbreviated to a placeholder. -/
inductive PolyError where
  | parse (msg : String) : PolyError
  | stream (msg : String) (kind : StreamErrorKind) : PolyError
deriving DecidableEq

/-- Modelled from the spec: rust_decimal::Decimal values, which the spec
treats as opaque decimal-precision numbers decoded from JSON strings; the
raw accepted literal is kept. -/
structure Decimal where
  raw : String
deriving DecidableEq

/-- Modelled from the spec: the string accepted by the decimal decoder —
an optional sign followed by digits with at most one decimal point. -/
def isDecimalString (s : String) : Bool :=
  let cs := match s.data with
    | '-' :: rest => rest
    | cs => cs
  !cs.isEmpty && cs.all (fun c => c.isDigit || c = '.')
    && (cs.filter (fun c => c = '.')).length ≤ 1
    && cs.any Char.isDigit

/-- Modelled from the spec: decoding a decimal field serialized as a JSON
string (rust_decimal::serde::str). -/
def parseDecimal (v : Json) : Option Decimal :=
  match asStr v with
  | some s => if isDecimalString s then some ⟨s⟩ else none
  | none => none

/-- Modelled from the spec: Side, the order side enumeration from
types.rs (not in the sources), with its uppercase wire encoding. -/
inductive Side where
  | buy : Side
  | sell : Side
deriving DecidableEq

/-- Modelled from the spec: deserializing a Side from its JSON string. -/
def parseSide (v : Json) : Option Side :=
  match asStr v with
  | some "BUY" => some Side.buy
  | some "SELL" => some Side.sell
  | _ => none

/-- Modelled from the spec: OrderSummary, one price/size book level from
types.rs (not in the sources); both fields are string-encoded decimals. -/
structure OrderSummary where
  price : Decimal
  size : Decimal
deriving DecidableEq

/-- Modelled from the spec: deserializing one OrderSummary object. -/
def parseOrderSummary (v : Json) : Option OrderSummary :=
  match (jsonGet v "price").bind parseDecimal with
  | none => none
  | some price =>
    match (jsonGet v "size").bind parseDecimal with
    | none => none
    | some size => some ⟨price, size⟩

/-- Deserialize every element of a JSON array, failing on any other value
or any failing element (serde semantics for Vec fields). -/
def parseJsonList {α : Type} (p : Json → Option α) (v : Json) : Option (List α) :=
  match v with
  | Json.arr elems => elems.mapM p
  | _ => none

/-! ## Typed market events (wss.rs) -/

/-- Book summary message (struct MarketBook in wss.rs). -/
structure MarketBook where
  event_type : String
  asset_id : String
  market : String
  timestamp : String
  hash : String
  bids : List OrderSummary
  asks : List OrderSummary
deriving DecidableEq

/-- Individual price change entry (struct PriceChangeEntry in wss.rs). -/
structure PriceChangeEntry where
  asset_id : String
  price : Decimal
  size : Decimal
  side : Side
  hash : String
  best_bid : Decimal
  best_ask : Decimal
deriving DecidableEq

/-- Payload for price change notifications (struct PriceChangeMessage). -/
structure PriceChangeMessage where
  event_type : String
  market : String
  price_changes : List PriceChangeEntry
  timestamp : String
deriving DecidableEq

/-- Tick size change events (struct TickSizeChangeMessage in wss.rs). -/
structure TickSizeChangeMessage where
  event_type : String
  asset_id : String
  market : String
  old_tick_size : Decimal
  new_tick_size : Decimal
  side : String
  timestamp : String
deriving DecidableEq

/-- Trade events emitted when a trade settles (struct LastTradeMessage). -/
structure LastTradeMessage where
  event_type : String
  asset_id : String
  fee_rate_bps : String
  market : String
  price : Decimal
  size : Decimal
  side : Side
  timestamp : String
deriving DecidableEq

/-- A parsed market broadcast (enum WssMarketEvent in wss.rs). -/
inductive WssMarketEvent where
  | Book (b : MarketBook) : WssMarketEvent
  | PriceChange (p : PriceChangeMessage) : WssMarketEvent
  | TickSizeChange (t : TickSizeChangeMessage) : WssMarketEvent
  | LastTrade (l : LastTradeMessage) : WssMarketEvent
deriving DecidableEq

/-! ## Struct deserializers (the derived serde Deserialize impls) -/

/-- A required string field (serde: plain String field). -/
def reqStr (v : Json) (key : String) : Option String :=
  (jsonGet v key).bind asStr

/-- A required decimal field (serde: with rust_decimal::serde::str). -/
def reqDec (v : Json) (key : String) : Option Decimal :=
  (jsonGet v key).bind parseDecimal

def MarketBook.fromJson (v : Json) : Option MarketBook :=
  match reqStr v "event_type", reqStr v "asset_id", reqStr v "market",
      reqStr v "timestamp", reqStr v "hash",
      (jsonGet v "bids").bind (parseJsonList parseOrderSummary),
      (jsonGet v "asks").bind (parseJsonList parseOrderSummary) with
  | some et, some aid, some mkt, some ts, some h, some bids, some asks =>
    some ⟨et, aid, mkt, ts, h, bids, asks⟩
  | _, _, _, _, _, _, _ => none

def PriceChangeEntry.fromJson (v : Json) : Option PriceChangeEntry :=
  match reqStr v "asset_id", reqDec v "price", reqDec v "size",
      (jsonGet v "side").bind parseSide, reqStr v "hash",
      reqDec v "best_bid", reqDec v "best_ask" with
  | some aid, some p, some sz, some sd, some h, some bb, some ba =>
    some ⟨aid, p, sz, sd, h, bb, ba⟩
  | _, _, _, _, _, _, _ => none

def PriceChangeMessage.fromJson (v : Json) : Option PriceChangeMessage :=
  match reqStr v "event_type", reqStr v "market",
      (jsonGet v "price_changes").bind (parseJsonList PriceChangeEntry.fromJson),
      reqStr v "timestamp" with
  | some et, some mkt, some pcs, some ts => some ⟨et, mkt, pcs, ts⟩
  | _, _, _, _ => none

def TickSizeChangeMessage.fromJson (v : Json) : Option TickSizeChangeMessage :=
  match reqStr v "event_type", reqStr v "asset_id", reqStr v "market",
      reqDec v "old_tick_size", reqDec v "new_tick_size",
      reqStr v "side", reqStr v "timestamp" with
  | some et, some aid, some mkt, some ot, some nt, some sd, some ts =>
    some ⟨et, aid, mkt, ot, nt, sd, ts⟩
  | _, _, _, _, _, _, _ => none

def LastTradeMessage.fromJson (v : Json) : Option LastTradeMessage :=
  match reqStr v "event_type", reqStr v "asset_id", reqStr v "fee_rate_bps",
      reqStr v "market", reqDec v "price", reqDec v "size",
      (jsonGet v "side").bind parseSide, reqStr v "timestamp" with
  | some et, some aid, some fr, some mkt, some p, some sz, some sd, some ts =>
    some ⟨et, aid, fr, mkt, p, sz, sd, ts⟩
  | _, _, _, _, _, _, _, _ => none

/-! ## Frame classification (fn parse_market_event_value, parse_market_events) -/

/-- fn parse_market_event_value: read the event_type discriminant (falling
back to the type field when event_type yields no string) and dispatch to
the typed decoder; unknown discriminants and missing discriminants are
parse errors. -/
def parse_market_event_value (value : Json) : Except PolyError WssMarketEvent :=
  match ((jsonGet value "event_type").bind asStr).orElse
      (fun _ => (jsonGet value "type").bind asStr) with
  | none => Except.error (PolyError.parse "Missing event_type/type in market message")
  | some event_type =>
    if event_type = "book" then
      match MarketBook.fromJson value with
      | some parsed => Except.ok (WssMarketEvent.Book parsed)
      | none => Except.error (PolyError.parse "Failed to parse book message: <decode error>")
    else if event_type = "price_change" then
      match PriceChangeMessage.fromJson value with
      | some parsed => Except.ok (WssMarketEvent.PriceChange parsed)
      | none => Except.error (PolyError.parse "Failed to parse price_change: <decode error>")
    else if event_type = "tick_size_change" then
      match TickSizeChangeMessage.fromJson value with
      | some parsed => Except.ok (WssMarketEvent.TickSizeChange parsed)
      | none => Except.error (PolyError.parse "Failed to parse tick_size_change: <decode error>")
    else if event_type = "last_trade_price" then
      match LastTradeMessage.fromJson value with
      | some parsed => Except.ok (WssMarketEvent.LastTrade parsed)
      | none => Except.error (PolyError.parse "Failed to parse last_trade_price: <decode error>")
    else
      Except.error (PolyError.parse ("Unknown market event_type: " ++ event_type))

/-- fn parse_market_events: decode the text as JSON; an array is
classified element by element in order (collect stops at the first
error), any other value is classified alone. -/
def parse_market_events (text : String) : Except PolyError (List WssMarketEvent) :=
  match serde_from_str text with
  | none => Except.error (PolyError.parse "Invalid JSON: <serde error>")
  | some value =>
    match value with
    | Json.arr array => array.mapM parse_market_event_value
    | _ =>
      match parse_market_event_value value with
      | Except.ok evt => Except.ok [evt]
      | Except.error e => Except.error e

/-! ## String helpers mirroring the Rust std functions used in wss.rs -/

/-- str::trim — strip whitespace from both ends. -/
def rustTrim (s : String) : String :=
  String.mk (((s.data.dropWhile Char.isWhitespace).reverse.dropWhile
    Char.isWhitespace).reverse)

/-- ASCII lowercasing of one character (char::to_ascii_lowercase). -/
def asciiLower (c : Char) : Char :=
  if 'A' ≤ c ∧ c ≤ 'Z' then Char.ofNat (c.toNat + 32) else c

/-- str::eq_ignore_ascii_case. -/
def eqIgnoreAsciiCase (s t : String) : Bool :=
  s.data.map asciiLower == t.data.map asciiLower

/-! ## The client state, the transport world and the operations -/

/-- Constants from wss.rs (durations in milliseconds). -/
def DEFAULT_WSS_BASE : String := "wss://ws-subscriptions-clob.polymarket.com"

def MARKET_CHANNEL_PATH : String := "/ws/market"

def BASE_RECONNECT_DELAY_MS : Nat := 250

def MAX_RECONNECT_DELAY_MS : Nat := 10000

def MAX_RECONNECT_ATTEMPTS : Nat := 8

/-- struct WssStats. Timestamps are logical clock readings. -/
structure WssStats where
  messages_received : Nat
  errors : Nat
  reconnect_count : Nat
  last_message_time : Option Nat
deriving DecidableEq

/-- impl Default for WssStats. -/
def WssStats.init : WssStats := ⟨0, 0, 0, none⟩

/-- struct WssMarketClient. The tungstenite stream handle is abstracted to
the Boolean connection (Option is_some); frames live in the world. The
front of each list is the front of the corresponding VecDeque. -/
structure WssMarketClient where
  connect_url : String
  connection : Bool
  subscribed_asset_ids : List String
  stats : WssStats
  disconnect_history : List Nat
  pending_events : List WssMarketEvent
deriving DecidableEq

/-- One inbound transport message (tungstenite Message as consumed by the
read loop): a text frame, protocol ping/pong, close, any other Ok frame
(binary), a transport read error, or end of stream. -/
inductive InMsg where
  | text (s : String) : InMsg
  | ping : InMsg
  | pong : InMsg
  | close : InMsg
  | binary : InMsg
  | err : InMsg
  | eof : InMsg

/-- The deterministic environment: the outcome of each successive
connect_async call, whether each successive outbound send is rejected,
the queue of inbound frames on the current transport, the trace of
successfully transmitted JSON messages, the count of protocol pong
replies, the warning log, and a logical clock supplying Utc::now. -/
structure World where
  connects : Nat → Bool
  connIdx : Nat
  sendFails : Nat → Bool
  sendIdx : Nat
  inbound : List InMsg
  sent : List Json
  pongsSent : Nat
  log : List String
  clock : Nat

/-- fn with_url: trim trailing slashes off the base and append the market
channel path; all state starts empty. -/
def with_url (url : String) : WssMarketClient :=
  { connect_url := (url.dropRightWhile (fun c => c = '/')) ++ MARKET_CHANNEL_PATH
    connection := false
    subscribed_asset_ids := []
    stats := WssStats.init
    disconnect_history := []
    pending_events := [] }

/-- fn new: the default base URL. -/
def WssMarketClient.new : WssMarketClient := with_url DEFAULT_WSS_BASE

/-- fn format_subscription. -/
def format_subscription (c : WssMarketClient) : Json :=
  Json.obj [("type", Json.str "market"),
    ("assets_ids", Json.arr (c.subscribed_asset_ids.map Json.str))]

/-- fn send_raw_message. With a live connection, serialize (serialization
of a Value cannot fail) and send; a rejected write is a MessageCorrupted
stream error. With no connection, a ConnectionFailed stream error. -/
def send_raw_message (c : WssMarketClient) (w : World) (message : Json) :
    Except PolyError Unit × WssMarketClient × World :=
  if c.connection then
    let fails := w.sendFails w.sendIdx
    let w1 := { w with sendIdx := w.sendIdx + 1 }
    if fails then
      (Except.error (PolyError.stream "Failed to send message: <transport>"
        StreamErrorKind.messageCorrupted), c, w1)
    else
      (Except.ok (), c, { w1 with sent := w1.sent ++ [message] })
  else
    (Except.error (PolyError.stream "WebSocket connection not established"
      StreamErrorKind.connectionFailed), c, w)

/-- fn send_subscription: nothing to do when no assets are subscribed. -/
def send_subscription (c : WssMarketClient) (w : World) :
    Except PolyError Unit × WssMarketClient × World :=
  if c.subscribed_asset_ids.isEmpty then (Except.ok (), c, w)
  else send_raw_message c w (format_subscription c)

/-- fn reconnect_delay: base delay times the attempt count, capped. -/
def reconnect_delay (attempts : Nat) : Nat :=
  min (BASE_RECONNECT_DELAY_MS * attempts) MAX_RECONNECT_DELAY_MS

/-- The retry loop of fn connect. Each iteration consumes one
connect_async outcome; on failure the error counter grows, and when the
attempt cap is not yet reached the computed delay is slept (collected in
the returned list) before retrying. The fuel only bounds the recursion;
connect supplies enough that the zero case is never reached. -/
def connectLoop (fuel : Nat) (c : WssMarketClient) (w : World) (attempts : Nat) :
    Except PolyError Unit × WssMarketClient × World × List Nat :=
  match fuel with
  | 0 => (Except.error (PolyError.stream "Failed to connect: out of fuel"
      StreamErrorKind.connectionFailed), c, w, [])
  | fuel + 1 =>
    let ok := w.connects w.connIdx
    let w1 := { w with connIdx := w.connIdx + 1 }
    if ok then
      let c1 := if attempts > 0 then
          { c with stats := { c.stats with reconnect_count := c.stats.reconnect_count + 1 } }
        else c
      (Except.ok (), { c1 with connection := true }, w1, [])
    else
      let attempts1 := attempts + 1
      let delay := reconnect_delay attempts1
      let c1 := { c with stats := { c.stats with errors := c.stats.errors + 1 } }
      if attempts1 ≥ MAX_RECONNECT_ATTEMPTS then
        (Except.error (PolyError.stream "Failed to connect after 8 attempts: <transport>"
          StreamErrorKind.connectionFailed), c1, w1, [])
      else
        let rest := connectLoop fuel c1 w1 attempts1
        (rest.1, rest.2.1, rest.2.2.1, delay :: rest.2.2.2)

/-- fn connect: run the retry loop from zero attempts. -/
def connect (c : WssMarketClient) (w : World) :
    Except PolyError Unit × WssMarketClient × World × List Nat :=
  connectLoop MAX_RECONNECT_ATTEMPTS c w 0

/-- fn ensure_connection: a no-op when connected, otherwise connect and
replay the subscription. -/
def ensure_connection (c : WssMarketClient) (w : World) :
    Except PolyError Unit × WssMarketClient × World :=
  if c.connection then (Except.ok (), c, w)
  else
    match connect c w with
    | (Except.error e, c1, w1, _) => (Except.error e, c1, w1)
    | (Except.ok _, c1, w1, _) => send_subscription c1 w1

/-- fn subscribe: replace the subscription set, ensure a connection, then
send the subscription. -/
def subscribe (c : WssMarketClient) (w : World) (asset_ids : List String) :
    Except PolyError Unit × WssMarketClient × World :=
  let c1 := { c with subscribed_asset_ids := asset_ids }
  match ensure_connection c1 w with
  | (Except.error e, c2, w2) => (Except.error e, c2, w2)
  | (Except.ok _, c2, w2) => send_subscription c2 w2

/-- fn next_event, the read loop. The first component is some outcome when
the loop returns within the fuel, none when it is still blocked or
looping (each loop iteration costs one fuel). -/
def next_event (fuel : Nat) (c : WssMarketClient) (w : World) :
    Option (Except PolyError WssMarketEvent) × WssMarketClient × World :=
  match fuel with
  | 0 => (none, c, w)
  | fuel + 1 =>
    match c.pending_events with
    | evt :: restEvts =>
      (some (Except.ok evt), { c with pending_events := restEvts }, w)
    | [] =>
      match ensure_connection c w with
      | (Except.error e, c1, w1) => (some (Except.error e), c1, w1)
      | (Except.ok _, c1, w1) =>
        match w1.inbound with
        | [] => (none, c1, w1)
        | msg :: restIn =>
          let w2 := { w1 with inbound := restIn }
          match msg with
          | InMsg.text s =>
            let trimmed := rustTrim s
            if eqIgnoreAsciiCase trimmed "ping" || eqIgnoreAsciiCase trimmed "pong" then
              next_event fuel c1 w2
            else if trimmed.data.head? ≠ some '{' ∧ trimmed.data.head? ≠ some '[' then
              next_event fuel c1
                { w2 with log := w2.log ++ ["ignoring unexpected text frame: " ++ trimmed] }
            else
              match parse_market_events s with
              | Except.error e => (some (Except.error e), c1, w2)
              | Except.ok events =>
                let c2 := { c1 with
                  stats := { c1.stats with
                    messages_received := c1.stats.messages_received + events.length
                    last_message_time := some w2.clock }
                  pending_events := c1.pending_events ++ events }
                let w3 := { w2 with clock := w2.clock + 1 }
                match c2.pending_events with
                | evt :: restEvts =>
                  (some (Except.ok evt), { c2 with pending_events := restEvts }, w3)
                | [] => next_event fuel c2 w3
          | InMsg.ping =>
            next_event fuel c1 { w2 with pongsSent := w2.pongsSent + 1 }
          | InMsg.pong => next_event fuel c1 w2
          | InMsg.close =>
            let dh := c1.disconnect_history ++ [w2.clock]
            let dh := if dh.length > 5 then dh.tail else dh
            next_event fuel
              { c1 with disconnect_history := dh, connection := false }
              { w2 with clock := w2.clock + 1 }
          | InMsg.binary => next_event fuel c1 w2
          | InMsg.err =>
            next_event fuel
              { c1 with connection := false,
                        stats := { c1.stats with errors := c1.stats.errors + 1 } }
              { w2 with log := w2.log ++ ["WebSocket error: <transport>"] }
          | InMsg.eof => next_event fuel { c1 with connection := false } w2

/-! ## Concrete fixtures for the testable properties -/

/-- The two-element array frame from the spec example: a book event
followed by a last_trade_price event. -/
def c1Frame : String := "[\x7b\"event_type\":\"book\",\"asset_id\":\"a1\",\"market\":\"m1\",\"timestamp\":\"t1\",\"hash\":\"h1\",\"bids\":[\x7b\"price\":\"0.5\",\"size\":\"10\"\x7d],\"asks\":[]\x7d,\x7b\"event_type\":\"last_trade_price\",\"asset_id\":\"a1\",\"fee_rate_bps\":\"0\",\"market\":\"m1\",\"price\":\"0.5\",\"size\":\"10\",\"side\":\"BUY\",\"timestamp\":\"t2\"\x7d]"

/-- The decoded book event of c1Frame. -/
def c1Book : MarketBook :=
  ⟨"book", "a1", "m1", "t1", "h1", [⟨⟨"0.5"⟩, ⟨"10"⟩⟩], []⟩

/-- The decoded last trade event of c1Frame. -/
def c1Trade : LastTradeMessage :=
  ⟨"last_trade_price", "a1", "0", "m1", ⟨"0.5"⟩, ⟨"10"⟩, Side.buy, "t2"⟩

/-- A client with an established connection and empty state. -/
def cConn : WssMarketClient :=
  { connect_url := "wss://example.invalid/ws/market", connection := true
    subscribed_asset_ids := [], stats := WssStats.init
    disconnect_history := [], pending_events := [] }

/-- The same client without a connection. -/
def cNoConn : WssMarketClient := { cConn with connection := false }

/-- A quiet world: connects succeed, sends are accepted, nothing inbound. -/
def wEmpty : World :=
  { connects := fun _ => true, connIdx := 0, sendFails := fun _ => false
    sendIdx := 0, inbound := [], sent := [], pongsSent := 0, log := [], clock := 0 }

/-- A world delivering the two-element array frame. -/
def wC1 : World := { wEmpty with inbound := [InMsg.text c1Frame] }

/-- A world whose transport rejects every write. -/
def wSendFail : World := { wEmpty with sendFails := fun _ => true }

/-- A world where every connect attempt fails. -/
def wAllFail : World := { wEmpty with connects := fun _ => false }

/-! ## Preservation lemmas for the plumbing -/

lemma send_raw_message_client (c : WssMarketClient) (w : World) (m : Json) :
    (send_raw_message c w m).2.1 = c := by
  unfold send_raw_message
  by_cases h : c.connection <;> simp [h]
  by_cases hf : w.sendFails w.sendIdx <;> simp [hf]

lemma send_subscription_client (c : WssMarketClient) (w : World) :
    (send_subscription c w).2.1 = c := by
  unfold send_subscription
  by_cases h : c.subscribed_asset_ids.isEmpty <;> simp [h, send_raw_message_client]

lemma connectLoop_preserves (fuel : Nat) :
    ∀ (c : WssMarketClient) (w : World) (a : Nat),
      (connectLoop fuel c w a).2.1.disconnect_history = c.disconnect_history
      ∧ (connectLoop fuel c w a).2.1.pending_events = c.pending_events
      ∧ (connectLoop fuel c w a).2.1.subscribed_asset_ids = c.subscribed_asset_ids
      ∧ (connectLoop fuel c w a).2.2.1.inbound = w.inbound
      ∧ (connectLoop fuel c w a).2.2.1.sent = w.sent
      ∧ (connectLoop fuel c w a).2.2.1.sendIdx = w.sendIdx := by
  induction fuel with
  | zero => intro c w a; exact ⟨rfl, rfl, rfl, rfl, rfl, rfl⟩
  | succ fuel ih =>
    intro c w a
    unfold connectLoop
    by_cases h : w.connects w.connIdx <;> simp [h]
    · by_cases ha : a > 0 <;> simp [ha]
    · by_cases hm : a + 1 ≥ MAX_RECONNECT_ATTEMPTS <;> simp [hm]
      exact ih _ _ _

lemma connect_preserves (c : WssMarketClient) (w : World) :
    (connect c w).2.1.disconnect_history = c.disconnect_history
    ∧ (connect c w).2.1.pending_events = c.pending_events
    ∧ (connect c w).2.1.subscribed_asset_ids = c.subscribed_asset_ids
    ∧ (connect c w).2.2.1.inbound = w.inbound
    ∧ (connect c w).2.2.1.sent = w.sent
    ∧ (connect c w).2.2.1.sendIdx = w.sendIdx :=
  connectLoop_preserves MAX_RECONNECT_ATTEMPTS c w 0

lemma ensure_connection_client_preserves (c : WssMarketClient) (w : World) :
    (ensure_connection c w).2.1.disconnect_history = c.disconnect_history
    ∧ (ensure_connection c w).2.1.pending_events = c.pending_events
    ∧ (ensure_connection c w).2.1.subscribed_asset_ids = c.subscribed_asset_ids := by
  unfold ensure_connection
  by_cases h : c.connection <;> simp [h]
  have hp := connect_preserves c w
  rcases hc : connect c w with ⟨r, c1, w1, slept⟩
  rw [hc] at hp
  cases r with
  | error e => simpa using ⟨hp.1, hp.2.1, hp.2.2.1⟩
  | ok u =>
    simp [send_subscription_client]
    exact ⟨hp.1, hp.2.1, hp.2.2.1⟩

/-! ## Claim theorems -/

/-- Claim C2: for every JSON object element, classification reads the
event_type discriminant (falling back to the type field); when neither
yields a string the result is the missing-discriminant ParseError, and
when the discriminant string is none of book, price_change,
tick_size_change, last_trade_price the result is a ParseError whose
message carries the offending discriminant. -/
theorem c2_discriminant_classification (v : Json) :
    ((((jsonGet v "event_type").bind asStr).orElse
        (fun _ => (jsonGet v "type").bind asStr)) = none →
      parse_market_event_value v =
        Except.error (PolyError.parse "Missing event_type/type in market message"))
    ∧ (∀ d, (((jsonGet v "event_type").bind asStr).orElse
        (fun _ => (jsonGet v "type").bind asStr)) = some d →
        d ∉ ["book", "price_change", "tick_size_change", "last_trade_price"] →
        parse_market_event_value v =
          Except.error (PolyError.parse ("Unknown market event_type: " ++ d))) := by
  constructor
  · intro h
    simp only [parse_market_event_value, h]
  · intro d h hd
    simp only [List.mem_cons, List.not_mem_nil, or_false, not_or] at hd
    obtain ⟨h1, h2, h3, h4⟩ := hd
    simp only [parse_market_event_value, h, if_neg h1, if_neg h2, if_neg h3, if_neg h4]

/-- Witness for C2 at the spec frame with the unrecognized discriminant
unknown_kind. -/
theorem c2_witness :
    parse_market_event_value (Json.obj [("event_type", Json.str "unknown_kind")]) =
      Except.error (PolyError.parse "Unknown market event_type: unknown_kind") := by
  have h := (c2_discriminant_classification
    (Json.obj [("event_type", Json.str "unknown_kind")])).2 "unknown_kind" rfl (by decide)
  exact h

/-- Claim C6 counterexample: send_raw_message with no established
connection fails with a ConnectionFailed stream error, which is not the
MessageCorrupted kind the claim asserts. -/
theorem c6_counterexample :
    (send_raw_message cNoConn wEmpty (Json.str "x")).1 =
      Except.error (PolyError.stream "WebSocket connection not established"
        StreamErrorKind.connectionFailed)
    ∧ StreamErrorKind.connectionFailed ≠ StreamErrorKind.messageCorrupted :=
  ⟨rfl, by decide⟩

/-- Claim C6 as amended: send_raw_message fails with a ConnectionFailed
error when no connection is established, and fails with MessageCorrupted
when the transport rejects the write on an established connection. -/
theorem c6_send_raw_message_errors (c : WssMarketClient) (w : World) (m : Json) :
    (c.connection = false →
      (send_raw_message c w m).1 =
        Except.error (PolyError.stream "WebSocket connection not established"
          StreamErrorKind.connectionFailed))
    ∧ (c.connection = true → w.sendFails w.sendIdx = true →
      (send_raw_message c w m).1 =
        Except.error (PolyError.stream "Failed to send message: <transport>"
          StreamErrorKind.messageCorrupted)) := by
  constructor
  · intro h
    simp [send_raw_message, h]
  · intro h hf
    simp [send_raw_message, h, hf]

/-- Witness for the amended C6: both failure modes at concrete inputs. -/
theorem c6_witness :
    (send_raw_message cNoConn wEmpty (Json.str "x")).1 =
      Except.error (PolyError.stream "WebSocket connection not established"
        StreamErrorKind.connectionFailed)
    ∧ (send_raw_message cConn wSendFail (Json.str "x")).1 =
      Except.error (PolyError.stream "Failed to send message: <transport>"
        StreamErrorKind.messageCorrupted) :=
  ⟨(c6_send_raw_message_errors cNoConn wEmpty (Json.str "x")).1 rfl,
   (c6_send_raw_message_errors cConn wSendFail (Json.str "x")).2 rfl rfl⟩

/-- Claim C8: ensure_connection while already connected is a complete
no-op — no connect attempt, no subscription replay, client and world
untouched — and calling it twice equals calling it once. -/
theorem c8_ensure_connection_idempotent (c : WssMarketClient) (w : World)
    (h : c.connection = true) :
    ensure_connection c w = (Except.ok (), c, w)
    ∧ ensure_connection (ensure_connection c w).2.1 (ensure_connection c w).2.2
        = ensure_connection c w := by
  have h1 : ensure_connection c w = (Except.ok (), c, w) := by
    simp [ensure_connection, h]
  exact ⟨h1, by simp [h1]⟩

/-- Witness for C8 at a concrete connected client. -/
theorem c8_witness :
    ensure_connection cConn wEmpty = (Except.ok (), cConn, wEmpty) :=
  (c8_ensure_connection_idempotent cConn wEmpty rfl).1

/-- Equality of connect results is decidable. -/
instance : DecidableEq (Except PolyError Unit) := fun a b =>
  match a, b with
  | Except.ok x, Except.ok y => isTrue (by cases x; cases y; rfl)
  | Except.error x, Except.error y =>
    if h : x = y then isTrue (by rw [h]) else isFalse (by simp [h])
  | Except.ok _, Except.error _ => isFalse (by simp)
  | Except.error _, Except.ok _ => isFalse (by simp)

/-- Claim C3: when the first eight connect attempts all fail, connect
returns a ConnectionFailed error having consumed exactly eight attempt
outcomes (no further attempt), the error counter grows by one per failed
attempt (eight in total), the delays slept between attempts are
min(250ms * n, 10s) for the n-th failure (n = 1..7; no sleep follows the
eighth), reconnect_delay obeys that formula for every n, and when the
first k attempts fail before a success (k < 8) the errors counter grows
by exactly k and the slept delays follow the same schedule. -/
theorem c3_connect_backoff (c : WssMarketClient) (w : World)
    (hidx : w.connIdx = 0) (hfail : ∀ i, i < 8 → w.connects i = false) :
    (connect c w).1 = Except.error (PolyError.stream
        "Failed to connect after 8 attempts: <transport>" StreamErrorKind.connectionFailed)
    ∧ (connect c w).2.2.2 = [250, 500, 750, 1000, 1250, 1500, 1750]
    ∧ (connect c w).2.1.stats.errors = c.stats.errors + 8
    ∧ (connect c w).2.2.1.connIdx = 8
    ∧ (∀ n, reconnect_delay n = min (250 * n) 10000)
    ∧ (∀ k : Fin 8,
        (connect cNoConn { wEmpty with connects := fun i => decide (k.val ≤ i) }).1
          = Except.ok ()
        ∧ (connect cNoConn
            { wEmpty with connects := fun i => decide (k.val ≤ i) }).2.1.stats.errors = k.val
        ∧ (connect cNoConn { wEmpty with connects := fun i => decide (k.val ≤ i) }).2.2.2
            = (List.range k.val).map (fun i => reconnect_delay (i + 1))) := by
  have h0 := hfail 0 (by omega)
  have h1 := hfail 1 (by omega)
  have h2 := hfail 2 (by omega)
  have h3 := hfail 3 (by omega)
  have h4 := hfail 4 (by omega)
  have h5 := hfail 5 (by omega)
  have h6 := hfail 6 (by omega)
  have h7 := hfail 7 (by omega)
  refine ⟨?_, ?_, ?_, ?_, fun n => rfl, by decide⟩ <;>
    simp [connect, connectLoop, reconnect_delay, hidx, h0, h1, h2, h3, h4, h5, h6, h7,
      BASE_RECONNECT_DELAY_MS, MAX_RECONNECT_DELAY_MS, MAX_RECONNECT_ATTEMPTS]

/-- Witness for C3: the all-failures world. -/
theorem c3_witness :
    (connect cNoConn wAllFail).1 = Except.error (PolyError.stream
        "Failed to connect after 8 attempts: <transport>" StreamErrorKind.connectionFailed)
    ∧ (connect cNoConn wAllFail).2.2.2 = [250, 500, 750, 1000, 1250, 1500, 1750]
    ∧ (connect cNoConn wAllFail).2.1.stats.errors = 8
    ∧ (connect cNoConn wAllFail).2.2.1.connIdx = 8 := by
  have h := c3_connect_backoff cNoConn wAllFail rfl (fun i _ => rfl)
  exact ⟨h.1, h.2.1, h.2.2.1, h.2.2.2.1⟩

/-- With an empty subscription set, ensure_connection never transmits:
the sent trace is untouched and the set stays empty. -/
lemma ensure_connection_empty_sub (c : WssMarketClient) (w : World)
    (h : c.subscribed_asset_ids = []) :
    (ensure_connection c w).2.1.subscribed_asset_ids = []
    ∧ (ensure_connection c w).2.2.sent = w.sent := by
  unfold ensure_connection
  by_cases hc : c.connection
  · simp [hc, h]
  · rw [if_neg (by simpa using hc)]
    have hp := connect_preserves c w
    rcases hcn : connect c w with ⟨r, c2, w2, slept⟩
    rw [hcn] at hp
    cases r with
    | error e =>
      refine ⟨?_, ?_⟩
      · simpa [h] using hp.2.2.1
      · simpa using hp.2.2.2.2.1
    | ok u =>
      have hsub : c2.subscribed_asset_ids = [] := by
        have := hp.2.2.1
        simpa [h] using this
      have hsent : w2.sent = w.sent := by simpa using hp.2.2.2.2.1
      simp [send_subscription, hsub, hsent]

/-- Claim C4: subscribe(S) replaces the held subscription set with S
unconditionally; with an established connection and an accepted write, a
non-empty S results in transmitting exactly the market-channel
subscription object with the asset ids of S in order, while an empty S
transmits nothing (in every state). -/
theorem c4_subscribe_replaces_and_sends (c : WssMarketClient) (w : World) (S : List String) :
    (subscribe c w S).2.1.subscribed_asset_ids = S
    ∧ (c.connection = true → w.sendFails w.sendIdx = false → S ≠ [] →
        (subscribe c w S).2.2.sent = w.sent ++
          [Json.obj [("type", Json.str "market"),
            ("assets_ids", Json.arr (S.map Json.str))]])
    ∧ (S = [] → (subscribe c w S).2.2.sent = w.sent) := by
  refine ⟨?_, ?_, ?_⟩
  · unfold subscribe
    dsimp only
    have hp := (ensure_connection_client_preserves { c with subscribed_asset_ids := S } w).2.2
    rcases he : ensure_connection { c with subscribed_asset_ids := S } w with ⟨r, c2, w2⟩
    rw [he] at hp
    cases r with
    | error e => simpa using hp
    | ok u => simpa [send_subscription_client] using hp
  · intro hc hsf hS
    have hSe : S.isEmpty = false := by
      cases S with
      | nil => exact absurd rfl hS
      | cons a t => rfl
    simp [subscribe, ensure_connection, hc, send_subscription, hSe,
      send_raw_message, hsf, format_subscription]
  · intro hS
    subst hS
    unfold subscribe
    dsimp only
    have h1 := ensure_connection_empty_sub { c with subscribed_asset_ids := [] } w rfl
    rcases he : ensure_connection { c with subscribed_asset_ids := [] } w with ⟨r, c2, w2⟩
    rw [he] at h1
    cases r with
    | error e => simpa using h1.2
    | ok u =>
      have hsub : c2.subscribed_asset_ids = [] := by simpa using h1.1
      have hsent : w2.sent = w.sent := by simpa using h1.2
      simp [send_subscription, hsub, hsent]

/-- Witness for C4: subscribing to two ids from a connected client
transmits exactly one subscription object with both ids in order. -/
theorem c4_witness :
    (subscribe cConn wEmpty ["123", "456"]).2.1.subscribed_asset_ids = ["123", "456"]
    ∧ (subscribe cConn wEmpty ["123", "456"]).2.2.sent =
        [Json.obj [("type", Json.str "market"),
          ("assets_ids", Json.arr [Json.str "123", Json.str "456"])]] := by
  have h := c4_subscribe_replaces_and_sends cConn wEmpty ["123", "456"]
  refine ⟨h.1, ?_⟩
  have h2 := h.2.1 rfl rfl (by decide)
  simpa using h2

/-- A world delivering a single transport read error. -/
def wErr : World := { wEmpty with inbound := [InMsg.err] }

/-- A world delivering a mixed-case textual ping frame. -/
def wPing : World := { wEmpty with inbound := [InMsg.text "  PiNg  "] }

/-- A world delivering a non-JSON noise frame. -/
def wNoise : World := { wEmpty with inbound := [InMsg.text "hello"] }

/-- A world delivering a JSON frame with no discriminant. -/
def wBadFrame : World := { wEmpty with inbound := [InMsg.text "[1]"] }

/-- Claim C5 counterexample: after a transport read error is processed,
no disconnect timestamp was recorded (the history stays empty), even
though the errors counter was incremented and nothing surfaced. -/
theorem c5_counterexample :
    (next_event 2 cConn wErr).2.1.disconnect_history = []
    ∧ (next_event 2 cConn wErr).2.1.stats.errors = 1
    ∧ (next_event 2 cConn wErr).1 = none :=
  ⟨rfl, rfl, rfl⟩

/-- Claim C5 as amended: on a transport read error the handle is torn
down and the errors counter is incremented, but no disconnect timestamp
is recorded; on a clean close the handle is torn down and a timestamp is
recorded in the bounded history; neither surfaces to the caller (the
loop continues). -/
theorem c5_read_error_and_close_recovery (fuel : Nat) (c : WssMarketClient) (w : World)
    (rest : List InMsg) (hconn : c.connection = true) (hpend : c.pending_events = []) :
    (w.inbound = InMsg.err :: rest →
      next_event (fuel + 1) c w =
        next_event fuel
          { c with connection := false,
                   stats := { c.stats with errors := c.stats.errors + 1 } }
          { w with inbound := rest, log := w.log ++ ["WebSocket error: <transport>"] })
    ∧ (w.inbound = InMsg.close :: rest →
      next_event (fuel + 1) c w =
        next_event fuel
          { c with connection := false,
                   disconnect_history :=
                     if (c.disconnect_history ++ [w.clock]).length > 5 then
                       (c.disconnect_history ++ [w.clock]).tail
                     else c.disconnect_history ++ [w.clock] }
          { w with inbound := rest, clock := w.clock + 1 }) := by
  constructor <;> intro hin <;>
    simp [next_event, hpend, ensure_connection, hconn, hin]

/-- Witness for the amended C5 at the concrete error world. -/
theorem c5_witness :
    next_event 1 cConn wErr =
      next_event 0
        { cConn with connection := false,
                     stats := { cConn.stats with errors := cConn.stats.errors + 1 } }
        { wErr with inbound := [], log := ["WebSocket error: <transport>"] } :=
  (c5_read_error_and_close_recovery 0 cConn wErr [] rfl rfl).1 rfl

/-- Claim C9: a text frame that trims to ping or pong (any ASCII case)
is discarded silently — the client (queue, stats, connection) is
untouched and no error is produced; a trimmed frame opening with neither
a brace nor a bracket is discarded with a logged warning, again leaving
the client untouched and producing no error. -/
theorem c9_control_and_noise_frames (fuel : Nat) (c : WssMarketClient) (w : World)
    (s : String) (rest : List InMsg)
    (hconn : c.connection = true) (hpend : c.pending_events = [])
    (hin : w.inbound = InMsg.text s :: rest) :
    ((eqIgnoreAsciiCase (rustTrim s) "ping" = true
        ∨ eqIgnoreAsciiCase (rustTrim s) "pong" = true) →
      next_event (fuel + 1) c w = next_event fuel c { w with inbound := rest })
    ∧ (eqIgnoreAsciiCase (rustTrim s) "ping" = false →
       eqIgnoreAsciiCase (rustTrim s) "pong" = false →
       (rustTrim s).data.head? ≠ some '{' →
       (rustTrim s).data.head? ≠ some '[' →
      next_event (fuel + 1) c w = next_event fuel c
        { w with inbound := rest,
                 log := w.log ++ ["ignoring unexpected text frame: " ++ rustTrim s] }) := by
  constructor
  · rintro (h | h) <;> simp [next_event, hpend, ensure_connection, hconn, hin, h]
  · intro h1 h2 h3 h4
    simp [next_event, hpend, ensure_connection, hconn, hin, h1, h2, h3, h4]

/-- Witness for C9: the mixed-case ping frame and a noise frame. -/
theorem c9_witness :
    next_event 1 cConn wPing = next_event 0 cConn { wPing with inbound := [] }
    ∧ next_event 1 cConn wNoise = next_event 0 cConn
        { wNoise with inbound := [],
                      log := ["ignoring unexpected text frame: hello"] } := by
  constructor
  · exact (c9_control_and_noise_frames 0 cConn wPing "  PiNg  " [] rfl rfl rfl).1 (Or.inl rfl)
  · exact (c9_control_and_noise_frames 0 cConn wNoise "hello" [] rfl rfl rfl).2
      rfl rfl (by decide) (by decide)

/-- Claim C10: a frame that passes the control and shape checks but
fails to decode makes next_event return that ParseError with the client
otherwise untouched (connection kept, stats and queue unchanged); a
frame that decodes to events grows messages_received by exactly the
number of decoded events — returning the head immediately when there is
one, and continuing the loop after a zero-event frame. -/
theorem c10_parse_error_atomicity (fuel : Nat) (c : WssMarketClient) (w : World)
    (s : String) (rest : List InMsg)
    (hconn : c.connection = true) (hpend : c.pending_events = [])
    (hin : w.inbound = InMsg.text s :: rest)
    (hp1 : eqIgnoreAsciiCase (rustTrim s) "ping" = false)
    (hp2 : eqIgnoreAsciiCase (rustTrim s) "pong" = false)
    (hshape : (rustTrim s).data.head? = some '{' ∨ (rustTrim s).data.head? = some '[') :
    (∀ err, parse_market_events s = Except.error err →
      next_event (fuel + 1) c w = (some (Except.error err), c, { w with inbound := rest }))
    ∧ (∀ e es, parse_market_events s = Except.ok (e :: es) →
      next_event (fuel + 1) c w =
        (some (Except.ok e),
         { c with stats := { c.stats with
                    messages_received := c.stats.messages_received + (es.length + 1),
                    last_message_time := some w.clock },
                  pending_events := es },
         { w with inbound := rest, clock := w.clock + 1 }))
    ∧ (parse_market_events s = Except.ok [] →
      next_event (fuel + 1) c w =
        next_event fuel
          { c with stats := { c.stats with last_message_time := some w.clock } }
          { w with inbound := rest, clock := w.clock + 1 }) := by
  have hnoise : ¬((rustTrim s).data.head? ≠ some '{' ∧ (rustTrim s).data.head? ≠ some '[') := by
    rcases hshape with h | h <;> simp [h]
  refine ⟨?_, ?_, ?_⟩
  · intro err herr
    simp [next_event, hpend, ensure_connection, hconn, hin, hp1, hp2, hnoise, herr]
  · intro e es hok
    simp [next_event, hpend, ensure_connection, hconn, hin, hp1, hp2, hnoise, hok]
  · intro hok
    simp [next_event, hpend, ensure_connection, hconn, hin, hp1, hp2, hnoise, hok]

/-- Witness for C10: the discriminant-free frame returns its ParseError
with the client untouched, and the two-event array frame returns its
head while messages_received grows by two. -/
theorem c10_witness :
    next_event 1 cConn wBadFrame =
      (some (Except.error (PolyError.parse "Missing event_type/type in market message")),
       cConn, { wBadFrame with inbound := [] })
    ∧ next_event 1 cConn wC1 =
      (some (Except.ok (WssMarketEvent.Book c1Book)),
       { cConn with stats := ⟨2, 0, 0, some 0⟩,
                    pending_events := [WssMarketEvent.LastTrade c1Trade] },
       { wC1 with inbound := [], clock := 1 }) := by
  constructor
  · exact (c10_parse_error_atomicity 0 cConn wBadFrame "[1]" [] rfl rfl rfl rfl rfl
      (Or.inr rfl)).1 (PolyError.parse "Missing event_type/type in market message") rfl
  · exact (c10_parse_error_atomicity 0 cConn wC1 c1Frame [] rfl rfl rfl rfl rfl
      (Or.inr rfl)).2.1 (WssMarketEvent.Book c1Book) [WssMarketEvent.LastTrade c1Trade] rfl

/-- Claim C1: next_event drains the pending queue head-first before
reading any frame; an array frame is classified element by element in
list order; and for the concrete book/last_trade_price array frame two
successive next_event calls return the Book event then the LastTrade
event. -/
theorem c1_array_frame_ordering :
    (∀ fuel (c : WssMarketClient) (w : World) e rest, c.pending_events = e :: rest →
      next_event (fuel + 1) c w = (some (Except.ok e), { c with pending_events := rest }, w))
    ∧ (∀ (s : String) (xs : List Json), serde_from_str s = some (Json.arr xs) →
      parse_market_events s = xs.mapM parse_market_event_value)
    ∧ (next_event 1 cConn wC1).1 = some (Except.ok (WssMarketEvent.Book c1Book))
    ∧ (next_event 1 cConn wC1).2.1.pending_events = [WssMarketEvent.LastTrade c1Trade]
    ∧ (next_event 1 (next_event 1 cConn wC1).2.1 (next_event 1 cConn wC1).2.2).1
        = some (Except.ok (WssMarketEvent.LastTrade c1Trade)) := by
  refine ⟨?_, ?_, rfl, rfl, rfl⟩
  · intro fuel c w e rest hp
    simp [next_event, hp]
  · intro s xs h
    simp [parse_market_events, h]

/-- A client holding one queued event. -/
def cPend : WssMarketClient := { cConn with pending_events := [WssMarketEvent.Book c1Book] }

/-- Witness for C1: draining a concrete queued event, and classifying a
concrete (empty) array frame element-wise. -/
theorem c1_witness :
    next_event 1 cPend wEmpty =
      (some (Except.ok (WssMarketEvent.Book c1Book)),
       { cPend with pending_events := [] }, wEmpty)
    ∧ parse_market_events "[]" = Except.ok [] := by
  refine ⟨c1_array_frame_ordering.1 0 cPend wEmpty (WssMarketEvent.Book c1Book) [] rfl, ?_⟩
  exact c1_array_frame_ordering.2.1 "[]" [] rfl

/-- The push-then-evict step keeps the history within five entries. -/
lemma push_evict_length_le (h : List Nat) (t : Nat) (hh : h.length ≤ 5) :
    (if (h ++ [t]).length > 5 then (h ++ [t]).tail else h ++ [t]).length ≤ 5 := by
  split <;> simp [List.length_append] at * <;> omega

/-- The read loop never grows the disconnect history beyond five. -/
lemma next_event_history_le (fuel : Nat) :
    ∀ (c : WssMarketClient) (w : World), c.disconnect_history.length ≤ 5 →
      (next_event fuel c w).2.1.disconnect_history.length ≤ 5 := by
  induction fuel with
  | zero => intro c w h; exact h
  | succ fuel ih =>
    intro c w h
    unfold next_event
    cases hp : c.pending_events with
    | cons e rest => simpa using h
    | nil =>
      have hdh := (ensure_connection_client_preserves c w).1
      rcases he : ensure_connection c w with ⟨r, c1, w1⟩
      rw [he] at hdh
      have h1 : c1.disconnect_history.length ≤ 5 := by
        simp only at hdh
        rw [hdh]; exact h
      cases r with
      | error e => simpa using h1
      | ok u =>
        dsimp only
        cases hin : w1.inbound with
        | nil => simpa using h1
        | cons msg restIn =>
          cases msg with
          | text s =>
            dsimp only
            split
            · exact ih _ _ h1
            · split
              · exact ih _ _ h1
              · split
                · simpa using h1
                · split
                  · simpa using h1
                  · exact ih _ _ (by simpa using h1)
          | ping => exact ih _ _ h1
          | pong => exact ih _ _ h1
          | close =>
            refine ih _ _ ?_
            dsimp only
            split <;> simp [List.length_append] at * <;> omega
          | binary => exact ih _ _ h1
          | err => exact ih _ _ h1
          | eof => exact ih _ _ h1

/-- subscribe never touches the disconnect history. -/
lemma subscribe_history (c : WssMarketClient) (w : World) (S : List String) :
    (subscribe c w S).2.1.disconnect_history = c.disconnect_history := by
  unfold subscribe
  dsimp only
  have hp := (ensure_connection_client_preserves { c with subscribed_asset_ids := S } w).1
  rcases he : ensure_connection { c with subscribed_asset_ids := S } w with ⟨r, c2, w2⟩
  rw [he] at hp
  cases r with
  | error e => simpa using hp
  | ok u => simpa [send_subscription_client] using hp

/-- Claim C7: the disconnect history never exceeds five timestamps under
any sequence of client operations (next_event preserves the bound,
subscribe leaves the history untouched, a fresh client starts empty),
disconnects are appended at the tail, and inserting into a full history
of five evicts the oldest head entry (FIFO). -/
theorem c7_disconnect_history_bounded :
    (∀ fuel (c : WssMarketClient) (w : World), c.disconnect_history.length ≤ 5 →
      (next_event fuel c w).2.1.disconnect_history.length ≤ 5)
    ∧ (∀ (c : WssMarketClient) (w : World) S,
        (subscribe c w S).2.1.disconnect_history = c.disconnect_history)
    ∧ (∀ u, (with_url u).disconnect_history = [])
    ∧ (∀ fuel (c : WssMarketClient) (w : World) rest,
        c.connection = true → c.pending_events = [] →
        w.inbound = InMsg.close :: rest → c.disconnect_history.length = 5 →
        next_event (fuel + 1) c w =
          next_event fuel
            { c with connection := false,
                     disconnect_history := c.disconnect_history.tail ++ [w.clock] }
            { w with inbound := rest, clock := w.clock + 1 }) := by
  refine ⟨fun fuel c w h => next_event_history_le fuel c w h,
    subscribe_history, fun u => rfl, ?_⟩
  intro fuel c w rest hconn hpend hin hlen
  have htail : (c.disconnect_history ++ [w.clock]).tail
      = c.disconnect_history.tail ++ [w.clock] := by
    cases hd : c.disconnect_history with
    | nil => rw [hd] at hlen; simp at hlen
    | cons a t => simp
  have hgt : (c.disconnect_history ++ [w.clock]).length > 5 := by
    simp [List.length_append, hlen]
  simp [next_event, hpend, ensure_connection, hconn, hin, hgt, htail, hlen]

/-- A connected client whose disconnect history is full. -/
def cHist5 : WssMarketClient := { cConn with disconnect_history := [0, 1, 2, 3, 4] }

/-- A world delivering a single clean close. -/
def wClose : World := { wEmpty with inbound := [InMsg.close] }

/-- Witness for C7: the bound holds through a concrete run, subscribe
leaves a concrete history alone, and a sixth disconnect evicts the
oldest timestamp. -/
theorem c7_witness :
    (next_event 2 cHist5 wClose).2.1.disconnect_history.length ≤ 5
    ∧ (subscribe cConn wEmpty ["a"]).2.1.disconnect_history = []
    ∧ next_event 1 cHist5 wClose =
        next_event 0
          { cHist5 with connection := false, disconnect_history := [1, 2, 3, 4, 0] }
          { wClose with inbound := [], clock := 1 } := by
  refine ⟨c7_disconnect_history_bounded.1 2 cHist5 wClose (by decide),
    c7_disconnect_history_bounded.2.1 cConn wEmpty ["a"], ?_⟩
  exact c7_disconnect_history_bounded.2.2.2 0 cHist5 wClose [] rfl rfl rfl rfl
